import Mathlib

/-!
Shallow embedding of the VideoCall client (frontend WebRTC signaling and
peer-connection orchestration component).

The embedding models the client-side state touched by the WebSocket message
handler and the peer-connection helpers:
  * `createPeerConnection` — guarded creation of a peer entry, keyed by
    participant id, optionally sending an initial offer;
  * `handleOffer` / `handleAnswer` / `handleIceCandidate` — the per-message
    responders;
  * `closePeerConnection` — teardown of one peer entry;
  * `handleWebSocketMessage` — the top-level dispatch over inbound messages;
  * the media-acquisition helpers `startLocalStream`, `checkDeviceAvailability`,
    `enableMicrophone`, and the track-attachment step shared by
    `retryPermissions` / `enableMicrophone` / `enableCamera`;
  * `scheduleReconnect` / the WebSocket `onclose` handler.

The browser environment (getUserMedia outcomes, device enumeration results,
WebSocket events) is passed in as explicit parameters; session descriptions
are abstracted to a two-valued type since the client only ever forwards them.
-/

/-- A room participant descriptor as carried by `room_info` / `user_joined`. -/
structure Participant where
  user_id : String
  user_name : String
deriving DecidableEq, Repr

/-- Kind of a media track. -/
inductive TrackKind
  | audio
  | video
deriving DecidableEq, Repr

/-- A local media track (kind plus an identity tag). -/
structure Track where
  kind : TrackKind
  tid : Nat
deriving DecidableEq, Repr

/-- An RTP sender slot on a peer connection; `track` is `none` after the
track has been removed. -/
structure Sender where
  track : Option Track
deriving DecidableEq, Repr

/-- Session descriptions, abstracted: the client only creates offers and
answers and forwards them opaquely. -/
inductive Desc
  | offerDesc
  | answerDesc
deriving DecidableEq, Repr

/-- The `RTCPeerConnection.connectionState` values the handler inspects. -/
inductive ConnState
  | fresh
  | connecting
  | connected
  | disconnected
  | failed
  | closedState
deriving DecidableEq, Repr

/-- Client-local state of one peer connection (one entry of `peersRef`). -/
structure Peer where
  isInitiator : Bool
  senders : List Sender
  localDesc : Option Desc
  remoteDesc : Option Desc
  candidates : List Nat
  connState : ConnState
deriving DecidableEq, Repr

/-- Outbound signaling messages the client sends over the WebSocket. -/
inductive OutMsg
  | offerMsg (toId : String) (d : Desc)
  | answerMsg (toId : String) (d : Desc)
  | iceMsg (toId : String) (c : Nat)
deriving DecidableEq, Repr

/-- Inbound signaling messages dispatched by `handleWebSocketMessage`.
`offer`, `answer` and `ice_candidate` carry both a `from` and a `to`
participant id, as in the JSON envelope. -/
inductive InMsg
  | room_info (participants : List Participant)
  | user_joined (user : Participant)
  | user_left (user : Participant)
  | offer (fromId toId : String) (d : Desc)
  | answer (fromId toId : String) (d : Desc)
  | ice_candidate (fromId toId : String) (c : Nat)
deriving DecidableEq, Repr

/-- The component state touched by the signaling handlers: own id, the
`participants` React state, the `peersRef` map (modelled as an association
list in insertion order), the `remoteStreams` map (modelled as the list of
peer ids holding a remote stream), and the local tracks of
`localStreamRef`. -/
structure ClientState where
  selfId : String
  participants : List Participant
  peers : List (String × Peer)
  remoteStreams : List String
  localTracks : List Track
deriving DecidableEq, Repr

/-- Model of `createPeerConnection(peerId, isInitiator)`: returns immediately when the
map already has an entry for `peerId`; otherwise creates the connection,
attaches the local tracks, and — when initiator — creates an offer, sets it
as local description and sends it to `peerId`. -/
def createPeerConnection (s : ClientState) (peerId : String) (isInitiator : Bool) :
    ClientState × List OutMsg :=
  if (s.peers.lookup peerId).isSome then
    (s, [])
  else
    let senders : List Sender := s.localTracks.map (fun t => { track := some t })
    let localDesc : Option Desc := if isInitiator then some .offerDesc else none
    let peer : Peer :=
      { isInitiator := isInitiator, senders := senders, localDesc := localDesc,
        remoteDesc := none, candidates := [], connState := .fresh }
    let out : List OutMsg := if isInitiator then [.offerMsg peerId .offerDesc] else []
    ({ s with peers := s.peers ++ [(peerId, peer)] }, out)

/-- Replace the entry for key `k` (first occurrence) by applying `f`. -/
def updatePeer (l : List (String × Peer)) (k : String) (f : Peer → Peer) :
    List (String × Peer) :=
  match l with
  | [] => []
  | e :: rest => if e.1 = k then (e.1, f e.2) :: rest else e :: updatePeer rest k f

/-- Model of `handleOffer(from, offer)`: create the peer connection as non-initiator if
absent, set the remote description, create and set an answer, and send the
answer addressed to `from`. -/
def handleOffer (s : ClientState) (fromId : String) (d : Desc) :
    ClientState × List OutMsg :=
  let r := createPeerConnection s fromId false
  let s1 := r.1
  match s1.peers.lookup fromId with
  | none => (s1, r.2)
  | some _ =>
      let peers2 := updatePeer s1.peers fromId
        (fun p => { p with remoteDesc := some d, localDesc := some .answerDesc })
      ({ s1 with peers := peers2 }, r.2 ++ [.answerMsg fromId .answerDesc])

/-- Model of `handleAnswer(from, answer)`: set the remote description on the peer
connection keyed by `from` when it exists. -/
def handleAnswer (s : ClientState) (fromId : String) (d : Desc) : ClientState :=
  match s.peers.lookup fromId with
  | none => s
  | some _ => { s with peers := updatePeer s.peers fromId (fun p => { p with remoteDesc := some d }) }

/-- Model of `handleIceCandidate(from, candidate)`: add the candidate to the peer
connection keyed by `from` when it exists. -/
def handleIceCandidate (s : ClientState) (fromId : String) (c : Nat) : ClientState :=
  match s.peers.lookup fromId with
  | none => s
  | some _ => { s with peers := updatePeer s.peers fromId (fun p => { p with candidates := p.candidates ++ [c] }) }

/-- Model of `closePeerConnection(peerId)`: close and delete the map entry when
present, and drop the remote stream reference. `participants` is untouched. -/
def closePeerConnection (s : ClientState) (peerId : String) : ClientState :=
  { s with
    peers := s.peers.filter (fun e => e.1 ≠ peerId)
    remoteStreams := s.remoteStreams.filter (fun q => q ≠ peerId) }

/-- The `onconnectionstatechange` handler installed on every peer connection:
on `failed` or `disconnected` it tears the link down via
`closePeerConnection`; every other state only logs. -/
def onConnectionStateChange (s : ClientState) (peerId : String) (st : ConnState) :
    ClientState :=
  if st = .failed ∨ st = .disconnected then closePeerConnection s peerId else s

/-- One iteration of the `room_info` loop: for a listed participant other
than self, `createPeerConnection(participant.user_id, true)`. -/
def createPeersForStep (acc : ClientState × List OutMsg) (p : Participant) :
    ClientState × List OutMsg :=
  if p.user_id ≠ acc.1.selfId then
    let r := createPeerConnection acc.1 p.user_id true
    (r.1, acc.2 ++ r.2)
  else acc

/-- The loop of the `room_info` case over the listed participants. -/
def createPeersFor (s : ClientState) (ps : List Participant) :
    ClientState × List OutMsg :=
  ps.foldl createPeersForStep (s, [])

/-- Model of `handleWebSocketMessage`: dispatch over the inbound message type.
`room_info` replaces the participants list and creates initiator connections
for every listed non-self participant; `user_joined` appends the new user to
the participants list and creates an initiator connection; `user_left`
filters the participants list and closes the peer; `offer` and
`ice_candidate` are dispatched on `from` with no inspection of `to`;
`answer` is applied only when `to` equals the local user id. -/
def handleWebSocketMessage (s : ClientState) (m : InMsg) : ClientState × List OutMsg :=
  match m with
  | .room_info ps =>
      let s1 := { s with participants := ps }
      createPeersFor s1 ps
  | .user_joined u =>
      let s1 := { s with participants := s.participants ++ [u] }
      if u.user_id ≠ s.selfId then createPeerConnection s1 u.user_id true
      else (s1, [])
  | .user_left u =>
      let s1 := { s with participants := s.participants.filter (fun p => p.user_id ≠ u.user_id) }
      (closePeerConnection s1 u.user_id, [])
  | .offer fromId _ d => handleOffer s fromId d
  | .answer fromId toId d =>
      if toId = s.selfId then (handleAnswer s fromId d, []) else (s, [])
  | .ice_candidate fromId _ c => (handleIceCandidate s fromId c, [])

/-- Failure classes of `getUserMedia`, keyed by the `error.name` values the
client inspects (`NotAllowedError`, `NotFoundError`, `NotReadableError`,
`OverconstrainedError`, anything else). -/
inductive GumErr
  | notAllowed
  | notFound
  | notReadable
  | overconstrained
  | otherErr
deriving DecidableEq, Repr

/-- Truth of an `Except` being a success. -/
def exOk {α β : Type} (e : Except α β) : Bool :=
  match e with
  | .ok _ => true
  | .error _ => false

/-- Device kinds reported by `enumerateDevices`. -/
inductive DeviceKind
  | audioinput
  | videoinput
  | audiooutput
deriving DecidableEq, Repr

/-- Model of `checkDeviceAvailability`: given the enumeration result
(`none` when `mediaDevices`/`enumerateDevices` is unavailable or throws),
set the tri-state `micDeviceAvailable` signal (`some true` when at least one
`audioinput` is listed, otherwise `none` = unknown). -/
def checkDeviceAvailability (enumRes : Option (List DeviceKind)) : Option Bool :=
  match enumRes with
  | some devices =>
      if 0 < (devices.filter (fun d => d = DeviceKind.audioinput)).length then some true
      else none
  | none => none

/-- Result state of one `enableMicrophone` call: the tri-state
`micDeviceAvailable` signal, the `micPermissionDenied` flag, whether audio
ended enabled, and the boolean return value. -/
structure MicResult where
  micDeviceAvailable : Option Bool
  micPermissionDenied : Bool
  audioEnabled : Bool
  succeeded : Bool
deriving DecidableEq, Repr

/-- Model of `enableMicrophone`. Environment inputs: `prior` is the current
`micDeviceAvailable` state; `optRes` is the outcome of the first
`getUserMedia` call with optimal audio constraints; `plainInnerRes` the
outcome of the inner relaxed retry with plain `{audio: true}` (run when the
optimal call throws); `plainOuterRes` the outcome of the relaxed
`getUserMedia({audio: true})` retry made inside the outer `NotFoundError` or
`OverconstrainedError` branches. Successful outcomes carry the number of
audio tracks in the acquired stream. -/
def enableMicrophone (prior : Option Bool)
    (optRes plainInnerRes plainOuterRes : Except GumErr Nat) : MicResult :=
  let acquired : Except GumErr Nat :=
    match optRes with
    | .ok n => .ok n
    | .error _ => plainInnerRes
  match acquired with
  | .ok n =>
      if n = 0 then
        -- `throw new Error('No audio tracks in stream')`: the outer catch sets
        -- `micPermissionDenied`, and the error name matches no named branch.
        { micDeviceAvailable := prior, micPermissionDenied := true,
          audioEnabled := false, succeeded := false }
      else
        { micDeviceAvailable := prior, micPermissionDenied := false,
          audioEnabled := true, succeeded := true }
  | .error e =>
      match e with
      | .notAllowed =>
          { micDeviceAvailable := prior, micPermissionDenied := true,
            audioEnabled := false, succeeded := false }
      | .notFound =>
          match plainOuterRes with
          | .ok m =>
              if 0 < m then
                { micDeviceAvailable := some true, micPermissionDenied := false,
                  audioEnabled := true, succeeded := true }
              else
                { micDeviceAvailable := prior, micPermissionDenied := true,
                  audioEnabled := false, succeeded := false }
          | .error _ =>
              { micDeviceAvailable := some false, micPermissionDenied := true,
                audioEnabled := false, succeeded := false }
      | .notReadable =>
          { micDeviceAvailable := prior, micPermissionDenied := true,
            audioEnabled := false, succeeded := false }
      | .overconstrained =>
          match plainOuterRes with
          | .ok m =>
              if 0 < m then
                { micDeviceAvailable := prior, micPermissionDenied := false,
                  audioEnabled := true, succeeded := true }
              else
                { micDeviceAvailable := prior, micPermissionDenied := true,
                  audioEnabled := false, succeeded := false }
          | .error _ =>
              { micDeviceAvailable := prior, micPermissionDenied := true,
                audioEnabled := false, succeeded := false }
      | .otherErr =>
          { micDeviceAvailable := prior, micPermissionDenied := true,
            audioEnabled := false, succeeded := false }

/-- Result of `startLocalStream`: the combined local stream (when any kind
was acquired) and the media flags it sets. -/
structure MediaOutcome where
  localTracks : List Track
  hasLocalStream : Bool
  audioEnabled : Bool
  videoEnabled : Bool
  micPermissionDenied : Bool
  cameraPermissionDenied : Bool
deriving DecidableEq, Repr

/-- Model of `startLocalStream`: the audio acquisition and the video
acquisition each run in their own try/catch (outcomes `audioRes`,
`videoRes`, carrying the acquired stream's tracks); the combined stream
collects the audio tracks of the audio stream and the video tracks of the
video stream, and each flag depends only on its own kind's outcome. -/
def startLocalStream (audioRes videoRes : Except GumErr (List Track)) :
    MediaOutcome :=
  let audioTracks : List Track :=
    match audioRes with
    | .ok ts => ts.filter (fun t => t.kind = TrackKind.audio)
    | .error _ => []
  let videoTracks : List Track :=
    match videoRes with
    | .ok ts => ts.filter (fun t => t.kind = TrackKind.video)
    | .error _ => []
  if exOk audioRes || exOk videoRes then
    { localTracks := audioTracks ++ videoTracks, hasLocalStream := true,
      audioEnabled := exOk audioRes, videoEnabled := exOk videoRes,
      micPermissionDenied := !(exOk audioRes),
      cameraPermissionDenied := !(exOk videoRes) }
  else
    { localTracks := [], hasLocalStream := false,
      audioEnabled := false, videoEnabled := false,
      micPermissionDenied := true, cameraPermissionDenied := true }

/-- Result of `initializeCall`: the room id when the room-info request
succeeded, the media outcome (media acquisition runs only after the
room-info request succeeds), whether the WebSocket connect step was
reached, and whether the call overlay was closed early (404/403). -/
structure CallInit where
  roomId : Option String
  media : Option MediaOutcome
  connectAttempted : Bool
  closedEarly : Bool
deriving DecidableEq, Repr

/-- Model of `initializeCall`: fetch the room info (`roomRes`, an error
carries the HTTP status); on success run `startLocalStream` inside a
try/catch that never aborts the call, then always proceed to
`connectWebSocket`. On 404/403 the call closes; on other failures the
WebSocket connect is attempted only when a room id is already known (it is
not on first run). -/
def initializeCall (roomRes : Except Nat String)
    (audioRes videoRes : Except GumErr (List Track)) : CallInit :=
  match roomRes with
  | .ok rid =>
      { roomId := some rid, media := some (startLocalStream audioRes videoRes),
        connectAttempted := true, closedEarly := false }
  | .error code =>
      { roomId := none, media := none, connectAttempted := false,
        closedEarly := code = 404 || code = 403 }

/-- Track attachment step shared by `retryPermissions`, `enableMicrophone`,
`enableCamera` and `grantAllPermissions`: look for an existing sender whose
track has the same kind; when found, replace that sender's track in place
(`replaceTrack`); otherwise append a new sender (`addTrack`). Returns the
updated sender list and `true` exactly when a new sender was added. -/
def senderHasKind (sd : Sender) (k : TrackKind) : Bool :=
  match sd.track with
  | some t => t.kind = k
  | none => false

/-- Recursive realization of find-matching-sender-then-replace / append. -/
def attachTrack : List Sender → Track → List Sender × Bool
  | [], t => ([{ track := some t }], true)
  | sd :: rest, t =>
      if senderHasKind sd t.kind then ({ track := some t } :: rest, false)
      else
        let r := attachTrack rest t
        (sd :: r.1, r.2)

/-- The literal delay passed to `setTimeout` in `scheduleReconnect`. -/
def reconnectDelayMs : Nat := 3000

/-- WebSocket `readyState` values. -/
inductive WsReadyState
  | connectingWs
  | openWs
  | closingWs
  | closedWs
deriving DecidableEq, Repr

/-- Signaling-channel reconnection bookkeeping. `reconnectTimer` is the
pending timer's delay; `attempts` counts the reconnects scheduled so far
(instrumentation only — the source keeps no such counter, so no handler may
read it); `reportedFailure` records whether a call-level failure was ever
surfaced to the user by the reconnection path. -/
structure WsClient where
  reconnectTimer : Option Nat
  attempts : Nat
  reportedFailure : Bool
deriving DecidableEq, Repr

/-- Model of `scheduleReconnect`: clear any pending timer and schedule a new
one with the fixed `reconnectDelayMs` delay. No attempt count is consulted
and no failure is reported. -/
def scheduleReconnect (s : WsClient) : WsClient :=
  { reconnectTimer := some reconnectDelayMs, attempts := s.attempts + 1,
    reportedFailure := s.reportedFailure }

/-- Model of the WebSocket `onclose` handler: when the close code is not
1000 (normal closure) and a socket reference is still present, schedule a
reconnect; otherwise do nothing. -/
def onWsClose (s : WsClient) (code : Nat) (wsPresent : Bool) : WsClient :=
  if code ≠ 1000 ∧ wsPresent then scheduleReconnect s else s

/-- Guard inside the reconnect timer callback: the retry proceeds exactly
when the socket's `readyState` is CLOSED — no attempt ceiling is consulted. -/
def reconnectTimerRetries (rs : WsReadyState) : Bool :=
  rs = WsReadyState.closedWs

/-! ## Association-list helper lemmas -/

theorem lookup_append_of_none {β : Type} {l l2 : List (String × β)} {k : String}
    (h : l.lookup k = none) : (l ++ l2).lookup k = l2.lookup k := by
  induction l with
  | nil => rfl
  | cons e rest ih =>
      cases e with
      | mk k1 b =>
        cases hbk : k == k1 with
        | true => simp [List.lookup, hbk] at h
        | false =>
          simp only [List.lookup, List.cons_append, hbk] at h ⊢
          exact ih h

theorem lookup_filterKey_ne {β : Type} (l : List (String × β)) (k : String) :
    (l.filter (fun e => e.1 ≠ k)).lookup k = none := by
  induction l with
  | nil => rfl
  | cons e rest ih =>
      by_cases he : e.1 = k
      · simp [List.filter_cons, he, ih]
        exact fun a b _ hak hka => hak hka.symm
      · have hbk : (k == e.1) = false := by
          exact beq_eq_false_iff_ne.mpr (fun hk => he hk.symm)
        simp [List.filter_cons, he, List.lookup, hbk, ih]
        exact fun a b _ hak hka => hak hka.symm

theorem lookup_updatePeer (l : List (String × Peer)) (k : String) (f : Peer → Peer) :
    (updatePeer l k f).lookup k = (l.lookup k).map f := by
  induction l with
  | nil => rfl
  | cons e rest ih =>
      by_cases he : e.1 = k
      · have hbk : (k == e.1) = true := beq_iff_eq.mpr he.symm
        simp [updatePeer, he, List.lookup, hbk]
      · have hbk : (k == e.1) = false := beq_eq_false_iff_ne.mpr (fun hk => he hk.symm)
        simp [updatePeer, he, List.lookup, hbk, ih]

theorem lookup_eq_none_iff {β : Type} (l : List (String × β)) (k : String) :
    l.lookup k = none ↔ k ∉ l.map Prod.fst := by
  induction l with
  | nil => simp
  | cons e rest ih =>
      cases hbk : k == e.1 with
      | true =>
        have : k = e.1 := beq_iff_eq.mp hbk
        simp [List.lookup, hbk, this]
      | false =>
        have : ¬ k = e.1 := by
          intro hk; rw [hk] at hbk; simp at hbk
        simp [List.lookup, hbk, ih, this]

theorem updatePeer_keys (l : List (String × Peer)) (k : String) (f : Peer → Peer) :
    (updatePeer l k f).map Prod.fst = l.map Prod.fst := by
  induction l with
  | nil => rfl
  | cons e rest ih =>
      by_cases he : e.1 = k
      · simp [updatePeer, he]
      · simp [updatePeer, he, ih]

/-! ## Behavioural helper lemmas -/

theorem createPeerConnection_present (s : ClientState) (pid : String) (b : Bool)
    (h : (s.peers.lookup pid).isSome) :
    createPeerConnection s pid b = (s, []) := by
  simp [createPeerConnection, h]

theorem createPeerConnection_absent (s : ClientState) (pid : String) (b : Bool)
    (habs : s.peers.lookup pid = none) :
    createPeerConnection s pid b =
      ({ s with peers := s.peers ++ [(pid,
          { isInitiator := b,
            senders := s.localTracks.map (fun t => { track := some t }),
            localDesc := if b then some .offerDesc else none,
            remoteDesc := none, candidates := [], connState := .fresh })] },
        if b then [.offerMsg pid .offerDesc] else []) := by
  simp [createPeerConnection, habs]

theorem lookup_append_singleton {β : Type} (l : List (String × β)) (k : String) (b : β)
    (h : l.lookup k = none) : (l ++ [(k, b)]).lookup k = some b := by
  rw [lookup_append_of_none h]
  simp [List.lookup]

theorem createPeerConnection_keys_nodup (s : ClientState) (pid : String) (b : Bool)
    (h : (s.peers.map Prod.fst).Nodup) :
    (((createPeerConnection s pid b).1).peers.map Prod.fst).Nodup := by
  by_cases hp : (s.peers.lookup pid).isSome
  · rw [createPeerConnection_present s pid b hp]
    exact h
  · have habs : s.peers.lookup pid = none := by
      cases hl : s.peers.lookup pid with
      | none => rfl
      | some v => rw [hl] at hp; simp at hp
    have hmem : pid ∉ s.peers.map Prod.fst := (lookup_eq_none_iff _ _).mp habs
    rw [createPeerConnection_absent s pid b habs]
    simp [List.nodup_append, h, hmem]

theorem createPeersForStep_keys_nodup (acc : ClientState × List OutMsg) (p : Participant)
    (h : (acc.1.peers.map Prod.fst).Nodup) :
    (((createPeersForStep acc p).1).peers.map Prod.fst).Nodup := by
  unfold createPeersForStep
  by_cases hp : p.user_id ≠ acc.1.selfId
  · simpa [hp] using createPeerConnection_keys_nodup acc.1 p.user_id true h
  · simpa [hp] using h

theorem foldl_createPeersForStep_keys_nodup (ps : List Participant)
    (acc : ClientState × List OutMsg) (h : (acc.1.peers.map Prod.fst).Nodup) :
    (((ps.foldl createPeersForStep acc).1).peers.map Prod.fst).Nodup := by
  induction ps generalizing acc with
  | nil => simpa using h
  | cons p rest ih => exact ih _ (createPeersForStep_keys_nodup acc p h)

theorem keys_filter_nodup {β : Type} (l : List (String × β)) (k : String)
    (h : (l.map Prod.fst).Nodup) :
    ((l.filter (fun e => e.1 ≠ k)).map Prod.fst).Nodup :=
  h.sublist ((l.filter_sublist (p := fun e => e.1 ≠ k)).map Prod.fst)

theorem handleOffer_keys_nodup (s : ClientState) (f : String) (d : Desc)
    (h : (s.peers.map Prod.fst).Nodup) :
    (((handleOffer s f d).1).peers.map Prod.fst).Nodup := by
  have h1 := createPeerConnection_keys_nodup s f false h
  unfold handleOffer
  cases hl : ((createPeerConnection s f false).1).peers.lookup f with
  | none => simpa [hl] using h1
  | some p => simpa [hl, updatePeer_keys] using h1

theorem handleAnswer_keys_nodup (s : ClientState) (f : String) (d : Desc)
    (h : (s.peers.map Prod.fst).Nodup) :
    ((handleAnswer s f d).peers.map Prod.fst).Nodup := by
  unfold handleAnswer
  cases hl : s.peers.lookup f with
  | none => simpa [hl] using h
  | some p => simpa [hl, updatePeer_keys] using h

theorem handleIceCandidate_keys_nodup (s : ClientState) (f : String) (c : Nat)
    (h : (s.peers.map Prod.fst).Nodup) :
    ((handleIceCandidate s f c).peers.map Prod.fst).Nodup := by
  unfold handleIceCandidate
  cases hl : s.peers.lookup f with
  | none => simpa [hl] using h
  | some p => simpa [hl, updatePeer_keys] using h

theorem handleMsg_keys_nodup (s : ClientState) (m : InMsg)
    (h : (s.peers.map Prod.fst).Nodup) :
    (((handleWebSocketMessage s m).1).peers.map Prod.fst).Nodup := by
  cases m with
  | room_info ps =>
      exact foldl_createPeersForStep_keys_nodup ps _ h
  | user_joined u =>
      unfold handleWebSocketMessage
      by_cases hu : u.user_id ≠ s.selfId
      · simpa [hu] using
          createPeerConnection_keys_nodup { s with participants := s.participants ++ [u] }
            u.user_id true h
      · simpa [hu] using h
  | user_left u =>
      simpa [handleWebSocketMessage, closePeerConnection] using
        keys_filter_nodup s.peers u.user_id h
  | offer fromId toId d =>
      exact handleOffer_keys_nodup s fromId d h
  | answer fromId toId d =>
      unfold handleWebSocketMessage
      by_cases ht : toId = s.selfId
      · simpa [ht] using handleAnswer_keys_nodup s fromId d h
      · simpa [ht] using h
  | ice_candidate fromId toId c =>
      exact handleIceCandidate_keys_nodup s fromId c h

/-! ## Concrete states used by witnesses and counterexamples -/

/-- A freshly joined client for user "A": no participants, no peers yet. -/
def stateNewJoinerA : ClientState :=
  { selfId := "A", participants := [], peers := [], remoteStreams := [], localTracks := [] }

/-- A pre-existing participant "B". -/
def participantB : Participant := { user_id := "B", user_name := "Bob" }

/-- A connected peer entry for "B". -/
def peerEntryB : Peer :=
  { isInitiator := true, senders := [], localDesc := some .offerDesc,
    remoteDesc := some .answerDesc, candidates := [], connState := .connected }

/-- Client "A" already linked to "B" (peer map entry, remote stream, and
participants list all hold "B"). -/
def stateLinkedAB : ClientState :=
  { selfId := "A", participants := [participantB], peers := [("B", peerEntryB)],
    remoteStreams := ["B"], localTracks := [] }

/-! ## C1 -/

/-- C1 counterexample: client "A" is the newly joined member (it has just
received `room_info`); the listed pre-existing member is "B". The `room_info`
handler creates a peer connection for "B" with `isInitiator = true` and sends
an offer to "B" — so, contrary to the claim, the newly joined member does
initiate toward a pre-existing member, and the `room_info` handler does
create initiator peer connections. -/
theorem C1_counterexample :
    (handleWebSocketMessage stateNewJoinerA (.room_info [participantB])).2
        = [.offerMsg "B" .offerDesc] ∧
    (((handleWebSocketMessage stateNewJoinerA (.room_info [participantB])).1.peers.lookup
        "B").map Peer.isInitiator) = some true := by
  decide

/-- C1 (amended): both discovery paths initiate. The `room_info` handler run
by the newly joined member creates an initiator peer connection toward each
listed pre-existing member and sends an offer, and the `user_joined` handler
run by each already-present member likewise creates an initiator connection
toward the new member and sends an offer — so for a pair (A, B) in the same
room both sides initiate toward each other, not exactly one, and the
initiator role is determined by the discovery event, not asymmetrically by
join order. -/
theorem C1_amended_both_sides_initiate (s : ClientState) (p : Participant)
    (hne : p.user_id ≠ s.selfId) (habs : s.peers.lookup p.user_id = none) :
    ((handleWebSocketMessage s (.room_info [p])).2 = [.offerMsg p.user_id .offerDesc] ∧
      (((handleWebSocketMessage s (.room_info [p])).1.peers.lookup p.user_id).map
          Peer.isInitiator) = some true) ∧
    ((handleWebSocketMessage s (.user_joined p)).2 = [.offerMsg p.user_id .offerDesc] ∧
      (((handleWebSocketMessage s (.user_joined p)).1.peers.lookup p.user_id).map
          Peer.isInitiator) = some true) := by
  constructor
  · have hroom : handleWebSocketMessage s (.room_info [p])
        = createPeersForStep ({ s with participants := [p] }, []) p := by
      simp [handleWebSocketMessage, createPeersFor]
    rw [hroom, createPeersForStep]
    simp only [hne, ne_eq, not_false_iff, if_true]
    rw [createPeerConnection_absent { s with participants := [p] } p.user_id true habs]
    constructor
    · simp
    · simp [lookup_append_singleton _ _ _ habs]
  · have hjoin : handleWebSocketMessage s (.user_joined p)
        = createPeerConnection { s with participants := s.participants ++ [p] }
            p.user_id true := by
      simp [handleWebSocketMessage, hne]
    rw [hjoin, createPeerConnection_absent { s with participants := s.participants ++ [p] }
      p.user_id true habs]
    constructor
    · simp
    · simp [lookup_append_singleton _ _ _ habs]

/-- Witness for `C1_amended_both_sides_initiate` at the concrete new joiner
"A" discovering pre-existing "B". -/
theorem C1_amended_both_sides_initiate_witness :
    ((handleWebSocketMessage stateNewJoinerA (.room_info [participantB])).2
        = [.offerMsg participantB.user_id .offerDesc] ∧
      (((handleWebSocketMessage stateNewJoinerA (.room_info [participantB])).1.peers.lookup
          participantB.user_id).map Peer.isInitiator) = some true) ∧
    ((handleWebSocketMessage stateNewJoinerA (.user_joined participantB)).2
        = [.offerMsg participantB.user_id .offerDesc] ∧
      (((handleWebSocketMessage stateNewJoinerA (.user_joined participantB)).1.peers.lookup
          participantB.user_id).map Peer.isInitiator) = some true) :=
  C1_amended_both_sides_initiate stateNewJoinerA participantB (by decide) (by decide)

/-! ## C2 -/

/-- C2 counterexample: after an abnormal close (code 1006), the scheduled
reconnect delay is the same 3000 ms whether it is the first attempt or the
hundred-and-first — successive reconnect delays do not grow — a reconnect is
still scheduled after 100 prior attempts — the number of attempts is not
bounded by a ceiling consulted by the code — and no call-level failure is
ever reported by the reconnection path. -/
theorem C2_counterexample :
    (onWsClose { reconnectTimer := none, attempts := 0, reportedFailure := false }
        1006 true).reconnectTimer
      = (onWsClose { reconnectTimer := none, attempts := 1, reportedFailure := false }
        1006 true).reconnectTimer ∧
    (onWsClose { reconnectTimer := none, attempts := 0, reportedFailure := false }
        1006 true).reconnectTimer = some 3000 ∧
    (onWsClose { reconnectTimer := none, attempts := 100, reportedFailure := false }
        1006 true).reconnectTimer = some 3000 ∧
    (onWsClose { reconnectTimer := none, attempts := 100, reportedFailure := false }
        1006 true).reportedFailure = false := by
  decide

/-- C2 (amended): reconnection after an abnormal close uses a fixed
3000 ms delay with no exponential growth, no retry ceiling, and no
call-level failure report: every abnormal close schedules a reconnect with
the same `reconnectDelayMs = 3000` regardless of how many attempts have
already happened, the timer callback's only guard is that the socket is
still CLOSED, and the reconnection path never sets a failure report. -/
theorem C2_amended_fixed_delay_unbounded (s : WsClient) (code : Nat)
    (hcode : code ≠ 1000) :
    (onWsClose s code true).reconnectTimer = some reconnectDelayMs ∧
    reconnectDelayMs = 3000 ∧
    (onWsClose s code true).attempts = s.attempts + 1 ∧
    (onWsClose s code true).reportedFailure = s.reportedFailure ∧
    (∀ rs : WsReadyState, reconnectTimerRetries rs = true ↔ rs = WsReadyState.closedWs) := by
  refine ⟨?_, rfl, ?_, ?_, ?_⟩
  · simp [onWsClose, hcode, scheduleReconnect]
  · simp [onWsClose, hcode, scheduleReconnect]
  · simp [onWsClose, hcode, scheduleReconnect]
  · intro rs
    simp [reconnectTimerRetries]

/-- Witness for `C2_amended_fixed_delay_unbounded` at close code 1006 with
41 prior attempts. -/
theorem C2_amended_fixed_delay_unbounded_witness :
    (onWsClose { reconnectTimer := none, attempts := 41, reportedFailure := false }
        1006 true).reconnectTimer = some reconnectDelayMs ∧
    reconnectDelayMs = 3000 ∧
    (onWsClose { reconnectTimer := none, attempts := 41, reportedFailure := false }
        1006 true).attempts = 41 + 1 ∧
    (onWsClose { reconnectTimer := none, attempts := 41, reportedFailure := false }
        1006 true).reportedFailure = false ∧
    (∀ rs : WsReadyState, reconnectTimerRetries rs = true ↔ rs = WsReadyState.closedWs) :=
  C2_amended_fixed_delay_unbounded
    { reconnectTimer := none, attempts := 41, reportedFailure := false } 1006 (by decide)

/-! ## C3 -/

/-- C3: for a participant id that already has an entry in the peer map,
`createPeerConnection` returns the state unchanged and sends nothing; a
duplicate `user_joined` for an already-linked participant leaves the peer
map unchanged and emits no message; a `room_info` listing an already-linked
participant again likewise leaves the peer map unchanged and emits no
message; and every message handler preserves key-uniqueness of the peer
map, so at most one peer entry exists per participant id at any time. -/
theorem C3_duplicate_discovery_noop (s : ClientState) (peerId : String) (b : Bool)
    (u : Participant)
    (hdup : (s.peers.lookup peerId).isSome)
    (hu : (s.peers.lookup u.user_id).isSome) :
    createPeerConnection s peerId b = (s, []) ∧
    (handleWebSocketMessage s (.user_joined u)).1.peers = s.peers ∧
    (handleWebSocketMessage s (.user_joined u)).2 = [] ∧
    (handleWebSocketMessage s (.room_info [u])).1.peers = s.peers ∧
    (handleWebSocketMessage s (.room_info [u])).2 = [] ∧
    (∀ m : InMsg, (s.peers.map Prod.fst).Nodup →
      (((handleWebSocketMessage s m).1).peers.map Prod.fst).Nodup) := by
  have hjoined : ∀ s1 : ClientState, s1.peers = s.peers →
      createPeerConnection s1 u.user_id true = (s1, []) := fun s1 h1 =>
    createPeerConnection_present s1 u.user_id true (by rw [h1]; exact hu)
  refine ⟨createPeerConnection_present s peerId b hdup, ?_, ?_, ?_, ?_, ?_⟩
  · unfold handleWebSocketMessage
    by_cases hne : u.user_id ≠ s.selfId
    · simp only [hne, if_true, ne_eq, not_false_iff]
      rw [hjoined { s with participants := s.participants ++ [u] } rfl]
    · simp [hne]
  · unfold handleWebSocketMessage
    by_cases hne : u.user_id ≠ s.selfId
    · simp only [hne, if_true, ne_eq, not_false_iff]
      rw [hjoined { s with participants := s.participants ++ [u] } rfl]
    · simp [hne]
  · unfold handleWebSocketMessage createPeersFor
    simp only [List.foldl_cons, List.foldl_nil, createPeersForStep]
    by_cases hne : u.user_id ≠ s.selfId
    · simp only [hne, if_true, ne_eq, not_false_iff]
      rw [hjoined { s with participants := [u] } rfl]
    · simp [hne]
  · unfold handleWebSocketMessage createPeersFor
    simp only [List.foldl_cons, List.foldl_nil, createPeersForStep]
    by_cases hne : u.user_id ≠ s.selfId
    · simp only [hne, if_true, ne_eq, not_false_iff]
      rw [hjoined { s with participants := [u] } rfl]
      rfl
    · simp [hne]
  · intro m h
    exact handleMsg_keys_nodup s m h

/-- Witness for `C3_duplicate_discovery_noop`: client "A" already linked to
"B" receives a duplicate discovery of "B". -/
theorem C3_duplicate_discovery_noop_witness :
    createPeerConnection stateLinkedAB "B" true = (stateLinkedAB, []) ∧
    (handleWebSocketMessage stateLinkedAB (.user_joined participantB)).1.peers
      = stateLinkedAB.peers ∧
    (handleWebSocketMessage stateLinkedAB (.user_joined participantB)).2 = [] ∧
    (handleWebSocketMessage stateLinkedAB (.room_info [participantB])).1.peers
      = stateLinkedAB.peers ∧
    (handleWebSocketMessage stateLinkedAB (.room_info [participantB])).2 = [] ∧
    (∀ m : InMsg, (stateLinkedAB.peers.map Prod.fst).Nodup →
      (((handleWebSocketMessage stateLinkedAB m).1).peers.map Prod.fst).Nodup) :=
  C3_duplicate_discovery_noop stateLinkedAB "B" true participantB (by decide) (by decide)

/-! ## C4 -/

/-- C4: when the transport for peer `pid` reports `failed` or
`disconnected`, the connection-state handler tears the link down at once:
the peer-map entry is removed, the remote stream reference for `pid` is
dropped, no message is sent (no retry at this layer), and the
room-membership participants list is left unchanged. -/
theorem C4_transport_failure_teardown (s : ClientState) (pid : String) (st : ConnState)
    (hst : st = ConnState.failed ∨ st = ConnState.disconnected) :
    (onConnectionStateChange s pid st).peers.lookup pid = none ∧
    pid ∉ (onConnectionStateChange s pid st).remoteStreams ∧
    (onConnectionStateChange s pid st).participants = s.participants := by
  have hclose : onConnectionStateChange s pid st = closePeerConnection s pid := by
    unfold onConnectionStateChange
    exact if_pos hst
  rw [hclose]
  refine ⟨lookup_filterKey_ne _ _, ?_, rfl⟩
  simp [closePeerConnection]

/-- Witness for `C4_transport_failure_teardown`: linked client "A" observes
peer "B" transition to `failed`. -/
theorem C4_transport_failure_teardown_witness :
    (onConnectionStateChange stateLinkedAB "B" ConnState.failed).peers.lookup "B" = none ∧
    "B" ∉ (onConnectionStateChange stateLinkedAB "B" ConnState.failed).remoteStreams ∧
    (onConnectionStateChange stateLinkedAB "B" ConnState.failed).participants
      = stateLinkedAB.participants :=
  C4_transport_failure_teardown stateLinkedAB "B" ConnState.failed (Or.inl rfl)

/-! ## C5 -/

theorem startLocalStream_flags (a v : Except GumErr (List Track)) :
    (startLocalStream a v).audioEnabled = exOk a ∧
    (startLocalStream a v).videoEnabled = exOk v ∧
    (startLocalStream a v).micPermissionDenied = !(exOk a) ∧
    (startLocalStream a v).cameraPermissionDenied = !(exOk v) := by
  unfold startLocalStream
  by_cases ha : exOk a
  · simp [ha]
  · by_cases hv : exOk v
    · simp [ha, hv]
    · simp [ha, hv]

/-- C5: audio and video acquisition are independent and media failure is
never fatal to call participation. The audio-side flags of
`startLocalStream` depend only on the audio outcome and the video-side
flags only on the video outcome (so failure of one kind never blocks the
other), and `initializeCall` reaches the WebSocket connect step for every
combination of outcomes — including both failing (listener mode). -/
theorem C5_media_failure_never_fatal (rid : String)
    (a a2 v v2 : Except GumErr (List Track)) :
    (initializeCall (.ok rid) a v).connectAttempted = true ∧
    (startLocalStream a v).videoEnabled = (startLocalStream a2 v).videoEnabled ∧
    (startLocalStream a v).cameraPermissionDenied
      = (startLocalStream a2 v).cameraPermissionDenied ∧
    (startLocalStream a v).audioEnabled = (startLocalStream a v2).audioEnabled ∧
    (startLocalStream a v).micPermissionDenied
      = (startLocalStream a v2).micPermissionDenied := by
  have h1 := startLocalStream_flags a v
  have h2 := startLocalStream_flags a2 v
  have h3 := startLocalStream_flags a v2
  refine ⟨rfl, ?_, ?_, ?_, ?_⟩
  · rw [h1.2.1, h2.2.1]
  · rw [h1.2.2.2, h2.2.2.2]
  · rw [h1.1, h3.1]
  · rw [h1.2.2.1, h3.2.2.1]

/-! ## C6 -/

/-- C6: the microphone-device-presence signal is tri-state and never set to
`false` from enumeration alone. `checkDeviceAvailability` yields only
`some true` or `none` (unknown), and `enableMicrophone` leaves the signal
at `some false` only when it was already `some false` or the acquisition
failed on the device-not-found path — the optimal-constraints attempt
threw, the relaxed `{audio: true}` retry threw `NotFoundError`, and the
further relaxed retry inside the `NotFoundError` branch also threw. -/
theorem C6_presence_false_only_after_degraded_retry (prior : Option Bool)
    (o p1 p2 : Except GumErr Nat) (enumRes : Option (List DeviceKind)) :
    checkDeviceAvailability enumRes ≠ some false ∧
    ((enableMicrophone prior o p1 p2).micDeviceAvailable = some false →
      prior = some false ∨
        (exOk o = false ∧ p1 = Except.error GumErr.notFound ∧ exOk p2 = false)) := by
  constructor
  · unfold checkDeviceAvailability
    cases enumRes with
    | none => simp
    | some devices =>
        by_cases hd : 0 < (devices.filter (fun d => d = DeviceKind.audioinput)).length
        · simp [hd]
        · simp [hd]
  · intro h
    unfold enableMicrophone at h
    cases o with
    | ok n =>
        by_cases hn : n = 0 <;> simp [hn] at h <;> exact Or.inl h
    | error e0 =>
        cases p1 with
        | ok n =>
            by_cases hn : n = 0 <;> simp [hn] at h <;> exact Or.inl h
        | error e =>
            cases e with
            | notAllowed => exact Or.inl h
            | notFound =>
                cases p2 with
                | ok m =>
                    by_cases hm : 0 < m <;> simp [hm] at h
                    · exact Or.inl h
                | error e2 => exact Or.inr ⟨rfl, rfl, rfl⟩
            | notReadable => exact Or.inl h
            | overconstrained =>
                cases p2 with
                | ok m =>
                    by_cases hm : 0 < m <;> simp [hm] at h <;> exact Or.inl h
                | error e2 => exact Or.inl h
            | otherErr => exact Or.inl h

/-- Witness for `C6_presence_false_only_after_degraded_retry`: prior signal
unknown, the optimal attempt and both relaxed retries throw
`NotFoundError` (so the signal does become `some false` there), and
enumeration lists no audio input. -/
theorem C6_presence_false_only_after_degraded_retry_witness :
    checkDeviceAvailability (some [DeviceKind.videoinput]) ≠ some false ∧
    ((none : Option Bool) = some false ∨
      (exOk (Except.error GumErr.notFound : Except GumErr Nat) = false ∧
        (Except.error GumErr.notFound : Except GumErr Nat) = Except.error GumErr.notFound ∧
        exOk (Except.error GumErr.notFound : Except GumErr Nat) = false)) :=
  ⟨(C6_presence_false_only_after_degraded_retry none
      (.error .notFound) (.error .notFound) (.error .notFound)
      (some [DeviceKind.videoinput])).1,
    (C6_presence_false_only_after_degraded_retry none
      (.error .notFound) (.error .notFound) (.error .notFound)
      (some [DeviceKind.videoinput])).2 (by decide)⟩

/-! ## C7 -/

/-- C7: for an existing peer connection's sender list, attaching a newly
acquired local track prefers in-place replacement: when some sender already
holds a track of the same kind, the track is replaced on that sender (the
flag is `false`, the sender-list length is unchanged, and a sender carrying
the new track is present); a new sender is appended via `addTrack` exactly
when no sender of that kind exists. -/
theorem C7_attach_prefers_replace (senders : List Sender) (t : Track) :
    ((senders.any (fun sd => senderHasKind sd t.kind)) = true →
      (attachTrack senders t).2 = false ∧
      (attachTrack senders t).1.length = senders.length ∧
      ({ track := some t } : Sender) ∈ (attachTrack senders t).1) ∧
    ((senders.any (fun sd => senderHasKind sd t.kind)) = false →
      (attachTrack senders t).2 = true ∧
      (attachTrack senders t).1 = senders ++ [{ track := some t }]) := by
  induction senders with
  | nil =>
      constructor
      · intro hany; simp at hany
      · intro _; exact ⟨rfl, rfl⟩
  | cons sd rest ih =>
      by_cases hk : senderHasKind sd t.kind
      · constructor
        · intro _
          simp [attachTrack, hk]
        · intro hnone
          simp [List.any_cons, hk] at hnone
      · constructor
        · intro hany
          have hrest : rest.any (fun x => senderHasKind x t.kind) = true := by
            simpa [List.any_cons, hk] using hany
          have h2 := ih.1 hrest
          refine ⟨?_, ?_, ?_⟩
          · simp [attachTrack, hk, h2.1]
          · simp [attachTrack, hk, h2.2.1]
          · simp [attachTrack, hk]
            exact Or.inr h2.2.2
        · intro hnone
          have hrest : rest.any (fun x => senderHasKind x t.kind) = false := by
            simpa [List.any_cons, hk] using hnone
          have h2 := ih.2 hrest
          constructor
          · simp [attachTrack, hk, h2.1]
          · simp [attachTrack, hk, h2.2]

/-- Witness for `C7_attach_prefers_replace` on a sender list with one audio
sender, attaching a fresh audio track (replacement case) — and, via the
second conjunct, the same list attaching a video track (append case). -/
theorem C7_attach_prefers_replace_witness :
    ((attachTrack [{ track := some { kind := TrackKind.audio, tid := 0 } }]
        { kind := TrackKind.audio, tid := 1 }).2 = false ∧
      (attachTrack [{ track := some { kind := TrackKind.audio, tid := 0 } }]
        { kind := TrackKind.audio, tid := 1 }).1.length
        = [({ track := some { kind := TrackKind.audio, tid := 0 } } : Sender)].length ∧
      ({ track := some { kind := TrackKind.audio, tid := 1 } } : Sender) ∈
        (attachTrack [{ track := some { kind := TrackKind.audio, tid := 0 } }]
          { kind := TrackKind.audio, tid := 1 }).1) ∧
    ((attachTrack [{ track := some { kind := TrackKind.audio, tid := 0 } }]
        { kind := TrackKind.video, tid := 2 }).2 = true ∧
      (attachTrack [{ track := some { kind := TrackKind.audio, tid := 0 } }]
        { kind := TrackKind.video, tid := 2 }).1
        = [{ track := some { kind := TrackKind.audio, tid := 0 } }]
            ++ [{ track := some { kind := TrackKind.video, tid := 2 } }]) :=
  ⟨(C7_attach_prefers_replace [{ track := some { kind := TrackKind.audio, tid := 0 } }]
      { kind := TrackKind.audio, tid := 1 }).1 (by decide),
    (C7_attach_prefers_replace [{ track := some { kind := TrackKind.audio, tid := 0 } }]
      { kind := TrackKind.video, tid := 2 }).2 (by decide)⟩

/-! ## C8 -/

/-- The peer entry freshly created by a non-initiator `createPeerConnection`. -/
def freshResponderPeer (s : ClientState) : Peer :=
  { isInitiator := false, senders := s.localTracks.map (fun t => { track := some t }),
    localDesc := none, remoteDesc := none, candidates := [], connState := .fresh }

theorem handleOffer_absent (s : ClientState) (f : String) (d : Desc)
    (habs : s.peers.lookup f = none) :
    handleOffer s f d =
      ({ s with peers := (updatePeer (s.peers ++ [(f, freshResponderPeer s)]) f
            (fun p => { p with remoteDesc := some d, localDesc := some .answerDesc })) },
        [.answerMsg f .answerDesc]) := by
  unfold handleOffer
  rw [createPeerConnection_absent s f false habs]
  simp [freshResponderPeer, lookup_append_singleton s.peers f _ habs]

/-- C8: on a received offer from participant `f` with no existing peer
connection, the client acts as responder: it creates the connection as
non-initiator, sends no offer of its own (the only message sent is one
answer addressed to `f`), sets the offer as remote description, and sets
its created answer as local description. -/
theorem C8_responder_on_offer (s : ClientState) (f tid : String) (d : Desc)
    (habs : s.peers.lookup f = none) :
    (handleWebSocketMessage s (.offer f tid d)).2 = [.answerMsg f .answerDesc] ∧
    (((handleWebSocketMessage s (.offer f tid d)).1.peers.lookup f).map Peer.isInitiator)
      = some false ∧
    (((handleWebSocketMessage s (.offer f tid d)).1.peers.lookup f).map Peer.remoteDesc)
      = some (some d) ∧
    (((handleWebSocketMessage s (.offer f tid d)).1.peers.lookup f).map Peer.localDesc)
      = some (some .answerDesc) := by
  have hlook := lookup_append_singleton s.peers f (freshResponderPeer s) habs
  have hmsg : handleWebSocketMessage s (.offer f tid d) = handleOffer s f d := rfl
  rw [hmsg, handleOffer_absent s f d habs]
  simp only [lookup_updatePeer, hlook]
  simp [freshResponderPeer]

/-- Witness for `C8_responder_on_offer`: fresh client "A" receives an offer
from unknown participant "B". -/
theorem C8_responder_on_offer_witness :
    (handleWebSocketMessage stateNewJoinerA (.offer "B" "A" .offerDesc)).2
      = [.answerMsg "B" .answerDesc] ∧
    (((handleWebSocketMessage stateNewJoinerA (.offer "B" "A" .offerDesc)).1.peers.lookup
        "B").map Peer.isInitiator) = some false ∧
    (((handleWebSocketMessage stateNewJoinerA (.offer "B" "A" .offerDesc)).1.peers.lookup
        "B").map Peer.remoteDesc) = some (some .offerDesc) ∧
    (((handleWebSocketMessage stateNewJoinerA (.offer "B" "A" .offerDesc)).1.peers.lookup
        "B").map Peer.localDesc) = some (some .answerDesc) :=
  C8_responder_on_offer stateNewJoinerA "B" "A" .offerDesc (by decide)

/-! ## C9 -/

/-- C9: inbound dispatch filters on `to` asymmetrically. The handling of an
`offer` or `ice_candidate` message is invariant under changing its `to`
field (it is applied to the peer keyed by `from` with no check of `to`),
whereas an `answer` whose `to` differs from the local user id is dropped
entirely, and an `answer` addressed to the local user is applied to the
peer keyed by its `from` field. -/
theorem C9_dispatch_to_field_asymmetry (s : ClientState) (f t1 t2 : String)
    (d : Desc) (c : Nat) (hne : t1 ≠ s.selfId) :
    handleWebSocketMessage s (.offer f t1 d) = handleWebSocketMessage s (.offer f t2 d) ∧
    handleWebSocketMessage s (.ice_candidate f t1 c)
      = handleWebSocketMessage s (.ice_candidate f t2 c) ∧
    handleWebSocketMessage s (.answer f t1 d) = (s, []) ∧
    handleWebSocketMessage s (.answer f s.selfId d) = (handleAnswer s f d, []) := by
  refine ⟨rfl, rfl, ?_, ?_⟩
  · simp [handleWebSocketMessage, hne]
  · simp [handleWebSocketMessage]

/-- Witness for `C9_dispatch_to_field_asymmetry`: linked client "A", an
answer addressed to "Z" (dropped) versus to "A" (applied). -/
theorem C9_dispatch_to_field_asymmetry_witness :
    handleWebSocketMessage stateLinkedAB (.offer "B" "Z" .answerDesc)
      = handleWebSocketMessage stateLinkedAB (.offer "B" "A" .answerDesc) ∧
    handleWebSocketMessage stateLinkedAB (.ice_candidate "B" "Z" 7)
      = handleWebSocketMessage stateLinkedAB (.ice_candidate "B" "A" 7) ∧
    handleWebSocketMessage stateLinkedAB (.answer "B" "Z" .answerDesc)
      = (stateLinkedAB, []) ∧
    handleWebSocketMessage stateLinkedAB (.answer "B" stateLinkedAB.selfId .answerDesc)
      = (handleAnswer stateLinkedAB "B" .answerDesc, []) :=
  C9_dispatch_to_field_asymmetry stateLinkedAB "B" "Z" "A" .answerDesc 7 (by decide)

/-! ## C10 -/

/-- C10: a `user_joined` message appends its participant descriptor to the
participants list unconditionally, before and independently of the
peer-connection dedup check — so a duplicate `user_joined` for an
already-listed, already-linked participant grows the participants list by
one while creating no new peer connection and sending nothing. -/
theorem C10_duplicate_user_joined_grows_list (s : ClientState) (u : Participant)
    (_hmem : u ∈ s.participants) (hpeer : (s.peers.lookup u.user_id).isSome) :
    (handleWebSocketMessage s (.user_joined u)).1.participants = s.participants ++ [u] ∧
    (handleWebSocketMessage s (.user_joined u)).1.participants.length
      = s.participants.length + 1 ∧
    (handleWebSocketMessage s (.user_joined u)).1.peers = s.peers ∧
    (handleWebSocketMessage s (.user_joined u)).2 = [] := by
  have hpresent : ∀ s1 : ClientState, s1.peers = s.peers →
      createPeerConnection s1 u.user_id true = (s1, []) := fun s1 h1 =>
    createPeerConnection_present s1 u.user_id true (by rw [h1]; exact hpeer)
  unfold handleWebSocketMessage
  by_cases hne : u.user_id ≠ s.selfId
  · simp only [hne, if_true, ne_eq, not_false_iff]
    rw [hpresent { s with participants := s.participants ++ [u] } rfl]
    exact ⟨rfl, by simp, rfl, rfl⟩
  · simp [hne]

/-- Witness for `C10_duplicate_user_joined_grows_list`: linked client "A"
receives a duplicate `user_joined` for the already-listed "B". -/
theorem C10_duplicate_user_joined_grows_list_witness :
    (handleWebSocketMessage stateLinkedAB (.user_joined participantB)).1.participants
      = stateLinkedAB.participants ++ [participantB] ∧
    (handleWebSocketMessage stateLinkedAB (.user_joined participantB)).1.participants.length
      = stateLinkedAB.participants.length + 1 ∧
    (handleWebSocketMessage stateLinkedAB (.user_joined participantB)).1.peers
      = stateLinkedAB.peers ∧
    (handleWebSocketMessage stateLinkedAB (.user_joined participantB)).2 = [] :=
  C10_duplicate_user_joined_grows_list stateLinkedAB participantB (by decide) (by decide)
